import Mathlib

/-!
A verification development for the rsmpi constant bridge (`src/rsmpi.h`,
`src/rsmpi.c`).  The bridge is a C translation unit that re-exports MPI
library constants under `RSMPI_`-prefixed names.  We shallowly embed the
two source files as data: the header is a list of `extern const`
declarations, the C file is a list of file-scope `const` definitions, each
recording the MPI constant used as its initializer.  The library
installation is modelled as an environment `String → Int` giving the bit
pattern the library headers assign to each MPI constant name; opaque
handles and plain integers alike are represented by their bit pattern,
on which the bridge performs no arithmetic, only pass-through and
equality.
-/

/-- The C types appearing in the bridge's declarations and definitions. -/
inductive CType where
  | mpiDatatype
  | mpiComm
  | mpiGroup
  | mpiMessage
  | mpiRequest
  | cInt
deriving DecidableEq, Repr

/-- A file-scope declaration from `rsmpi.h`: name, type, `extern` and
`const` qualifiers, and whether an initializer is present (none is, in
the header). -/
structure CDecl where
  name : String
  type : CType
  isExtern : Bool
  isConst : Bool
  hasInit : Bool
deriving DecidableEq, Repr

/-- Shorthand for the header's declaration form
`extern const <ty> <name>;` (no initializer). -/
def externConst (n : String) (t : CType) : CDecl :=
  { name := n, type := t, isExtern := true, isConst := true, hasInit := false }

/-- The declarations of `src/rsmpi.h`, lines 5-47, in source order. -/
def rsmpiHeaderDecls : List CDecl :=
  [ externConst "RSMPI_FLOAT" .mpiDatatype
  , externConst "RSMPI_DOUBLE" .mpiDatatype
  , externConst "RSMPI_INT8_T" .mpiDatatype
  , externConst "RSMPI_INT16_T" .mpiDatatype
  , externConst "RSMPI_INT32_T" .mpiDatatype
  , externConst "RSMPI_INT64_T" .mpiDatatype
  , externConst "RSMPI_UINT8_T" .mpiDatatype
  , externConst "RSMPI_UINT16_T" .mpiDatatype
  , externConst "RSMPI_UINT32_T" .mpiDatatype
  , externConst "RSMPI_UINT64_T" .mpiDatatype
  , externConst "RSMPI_DATATYPE_NULL" .mpiDatatype
  , externConst "RSMPI_COMM_WORLD" .mpiComm
  , externConst "RSMPI_COMM_NULL" .mpiComm
  , externConst "RSMPI_COMM_SELF" .mpiComm
  , externConst "RSMPI_GROUP_EMPTY" .mpiGroup
  , externConst "RSMPI_GROUP_NULL" .mpiGroup
  , externConst "RSMPI_UNDEFINED" .cInt
  , externConst "RSMPI_PROC_NULL" .cInt
  , externConst "RSMPI_ANY_SOURCE" .cInt
  , externConst "RSMPI_ANY_TAG" .cInt
  , externConst "RSMPI_MESSAGE_NO_PROC" .mpiMessage
  , externConst "RSMPI_REQUEST_NULL" .mpiRequest
  , externConst "RSMPI_IDENT" .cInt
  , externConst "RSMPI_CONGRUENT" .cInt
  , externConst "RSMPI_SIMILAR" .cInt
  , externConst "RSMPI_UNEQUAL" .cInt
  , externConst "RSMPI_THREAD_SINGLE" .cInt
  , externConst "RSMPI_THREAD_FUNNELED" .cInt
  , externConst "RSMPI_THREAD_SERIALIZED" .cInt
  , externConst "RSMPI_THREAD_MULTIPLE" .cInt
  , externConst "RSMPI_MAX_LIBRARY_VERSION_STRING" .cInt
  , externConst "RSMPI_MAX_PROCESSOR_NAME" .cInt ]

/-- A file-scope definition from `rsmpi.c`: `const <ty> <name> = <init>;`
where `init` is the name of the MPI constant the value is taken from. -/
structure CDef where
  name : String
  type : CType
  isConst : Bool
  init : String
deriving DecidableEq, Repr

/-- Shorthand for the definition form `const <ty> <name> = <init>;`. -/
def constDef (n : String) (t : CType) (i : String) : CDef :=
  { name := n, type := t, isConst := true, init := i }

/-- The definitions of `src/rsmpi.c`, lines 3-22, in source order. -/
def rsmpiDefs : List CDef :=
  [ constDef "RSMPI_FLOAT" .mpiDatatype "MPI_FLOAT"
  , constDef "RSMPI_DOUBLE" .mpiDatatype "MPI_DOUBLE"
  , constDef "RSMPI_INT8_T" .mpiDatatype "MPI_INT8_T"
  , constDef "RSMPI_INT16_T" .mpiDatatype "MPI_INT16_T"
  , constDef "RSMPI_INT32_T" .mpiDatatype "MPI_INT32_T"
  , constDef "RSMPI_INT64_T" .mpiDatatype "MPI_INT64_T"
  , constDef "RSMPI_UINT8_T" .mpiDatatype "MPI_UINT8_T"
  , constDef "RSMPI_UINT16_T" .mpiDatatype "MPI_UINT16_T"
  , constDef "RSMPI_UINT32_T" .mpiDatatype "MPI_UINT32_T"
  , constDef "RSMPI_UINT64_T" .mpiDatatype "MPI_UINT64_T"
  , constDef "RSMPI_DATATYPE_NULL" .mpiDatatype "MPI_DATATYPE_NULL"
  , constDef "RSMPI_COMM_WORLD" .mpiComm "MPI_COMM_WORLD"
  , constDef "RSMPI_COMM_NULL" .mpiComm "MPI_COMM_NULL"
  , constDef "RSMPI_COMM_SELF" .mpiComm "MPI_COMM_SELF"
  , constDef "RSMPI_GROUP_NULL" .mpiGroup "MPI_GROUP_NULL" ]

/-- The library installation seen by the bridge at build time: for each
MPI constant name, the bit pattern the installed headers give it. -/
def MPIEnv : Type := String → Int

/-- Look up the (first) definition of a symbol in `rsmpi.c`. -/
def lookupDef (n : String) : Option CDef :=
  rsmpiDefs.find? (fun d => d.name == n)

/-- The value the bridge exposes for a symbol, given the library
installation `env`: the captured initializer's value, or `none` when the
compiled unit contains no definition of the symbol. -/
def captureValue (env : MPIEnv) (n : String) : Option Int :=
  (lookupDef n).map (fun d => env d.init)

/-- All (name, value) pairs a build of `rsmpi.c` produces against `env`. -/
def captureAll (env : MPIEnv) : List (String × Int) :=
  rsmpiDefs.map (fun d => (d.name, env d.init))

/-- The MPI constant names the capture step reads from the installation's
headers: the initializers of `rsmpi.c`. -/
def captureInputs : List String :=
  rsmpiDefs.map (fun d => d.init)

/-- The names declared in `rsmpi.h`. -/
def declaredNames : List String :=
  rsmpiHeaderDecls.map (fun d => d.name)

/-- The names defined in `rsmpi.c`. -/
def definedNames : List String :=
  rsmpiDefs.map (fun d => d.name)

/-- The declared names with no backing definition in `rsmpi.c`. -/
def undefinedDeclaredNames : List String :=
  declaredNames.filter (fun n => lookupDef n == none)

/-- Whether a file-scope declaration is a definition under the C rules
relevant here: a declaration with an initializer defines the object, an
`extern` declaration without initializer does not. -/
def declIsDefinition (d : CDecl) : Bool :=
  d.hasInit || !d.isExtern

/-- One textual inclusion of `rsmpi.h`, given whether the guard macro
`RSMPI_INCLUDED` is already defined: if it is, the preprocessor emits
nothing; otherwise it defines the guard and emits the declarations
(`src/rsmpi.h`, lines 1-2 and 48). -/
def includeOnce (guardDefined : Bool) : List CDecl × Bool :=
  if guardDefined then ([], guardDefined) else (rsmpiHeaderDecls, true)

/-- The declarations accumulated by including `rsmpi.h` `n` times in one
translation unit, starting with the guard macro undefined, together with
the final guard state. -/
def includeTimes : Nat → List CDecl × Bool
  | 0 => ([], false)
  | n + 1 =>
    let p := includeTimes n
    let q := includeOnce p.2
    (p.1 ++ q.1, q.2)

/-- A translation unit, reduced to its bridge-relevant content: the
declarations it acquired from `rsmpi.h`, the file-scope object
definitions of bridge symbols it contains, and the names of the
functions it defines. -/
structure TransUnit where
  decls : List CDecl
  defs : List CDef
  functionDefs : List String
deriving DecidableEq, Repr

/-- The compiled `rsmpi.c` unit: the header's declarations (from
`#include "rsmpi.h"`), the fifteen constant definitions, and no function
definitions at all. -/
def bridgeUnit : TransUnit :=
  { decls := rsmpiHeaderDecls, defs := rsmpiDefs, functionDefs := [] }

/-- A consumer translation unit that includes `rsmpi.h` `k` times and
defines no bridge symbol of its own (it only references them). -/
def consumerUnit (k : Nat) : TransUnit :=
  { decls := (includeTimes k).1, defs := [], functionDefs := [] }

/-- How many times a translation unit defines the object named `n`. -/
def defCountIn (u : TransUnit) (n : String) : Nat :=
  (u.defs.filter (fun d => d.name == n)).length +
  (u.decls.filter (fun d => declIsDefinition d && d.name == n)).length

/-- How many definitions of the symbol `n` a link of the given
translation units sees; a count of 2 or more is a duplicate-definition
error. -/
def linkDefCount (us : List TransUnit) (n : String) : Nat :=
  (us.map (fun u => defCountIn u n)).sum

/-- Whether a definition from `rsmpi.c` is consistently declared in
`rsmpi.h`: exactly one declaration bears its name, and every declaration
bearing its name is `extern const` of the same type, matching the
definition's `const`. -/
def declMatches (d : CDef) : Bool :=
  ((rsmpiHeaderDecls.filter (fun h => h.name == d.name)).length == 1) &&
  rsmpiHeaderDecls.all (fun h =>
    h.name != d.name ||
    (h.type == d.type && h.isExtern && h.isConst && d.isConst))

/- ------------------------------------------------------------------ -/
/- Helper lemmas shared by the claim theorems.                         -/
/- ------------------------------------------------------------------ -/

/-- Each definition of `rsmpi.c` is found by `lookupDef` at its own
name (the fifteen defined names are pairwise distinct). -/
theorem lookupDef_of_mem : ∀ d ∈ rsmpiDefs, lookupDef d.name = some d := by
  decide

/-- No declaration of `rsmpi.h` is a definition: all are `extern`
without initializer. -/
theorem header_decl_not_definition :
    ∀ d ∈ rsmpiHeaderDecls, declIsDefinition d = false := by
  decide

/-- Including the header one or more times yields exactly the header's
declarations, with the guard macro set. -/
theorem includeTimes_succ (n : Nat) :
    includeTimes (n + 1) = (rsmpiHeaderDecls, true) := by
  induction n with
  | zero => rfl
  | succ m ih =>
    show (let p := includeTimes (m + 1);
          let q := includeOnce p.2; (p.1 ++ q.1, q.2)) = _
    rw [ih]
    simp [includeOnce]

/-- In a list of definitions with pairwise-distinct names, at most one
entry bears any given name. -/
theorem filter_name_length_le_one (l : List CDef)
    (hl : (l.map (fun d => d.name)).Nodup) (n : String) :
    (l.filter (fun d => d.name == n)).length ≤ 1 := by
  induction l with
  | nil => simp
  | cons d t ih =>
    rw [List.map_cons, List.nodup_cons] at hl
    rw [List.filter_cons]
    by_cases hd : (d.name == n) = true
    · rw [if_pos hd]
      have hn : d.name = n := eq_of_beq hd
      have ht : t.filter (fun x => x.name == n) = [] := by
        rw [List.filter_eq_nil_iff]
        intro x hx hbx
        exact hl.1 (List.mem_map.mpr ⟨x, hx, (eq_of_beq hbx).trans hn.symm⟩)
      rw [ht]
      simp
    · rw [if_neg hd]
      exact Nat.le_trans (ih hl.2) (by omega)

/-- A consumer unit never contributes an object definition of any
bridge symbol, however many times it includes the header. -/
theorem consumerUnit_defCount (k : Nat) (n : String) :
    defCountIn (consumerUnit k) n = 0 := by
  have hdecls : ∀ (l : List CDecl), (∀ d ∈ l, declIsDefinition d = false) →
      (l.filter (fun d => declIsDefinition d && d.name == n)).length = 0 := by
    intro l hl
    rw [List.length_eq_zero, List.filter_eq_nil_iff]
    intro d hd hbd
    rw [hl d hd] at hbd
    simp at hbd
  cases k with
  | zero => rfl
  | succ m =>
    show defCountIn { decls := (includeTimes (m + 1)).1, defs := [],
                      functionDefs := [] } n = 0
    rw [includeTimes_succ]
    simpa [defCountIn] using hdecls rsmpiHeaderDecls header_decl_not_definition

/-- Mapping the capture over a definition list only reads the
environment at the initializer names. -/
theorem captureAll_congr_aux (l : List CDef) (env₁ env₂ : MPIEnv)
    (h : ∀ s ∈ l.map (fun d => d.init), env₁ s = env₂ s) :
    l.map (fun d => (d.name, env₁ d.init)) =
    l.map (fun d => (d.name, env₂ d.init)) := by
  induction l with
  | nil => rfl
  | cons d t ih =>
    have hd : env₁ d.init = env₂ d.init :=
      h d.init (by simp)
    have ht := ih (fun s hs => h s (by simp [hs]))
    simp [hd, ht]

/- ------------------------------------------------------------------ -/
/- Claim theorems.                                                     -/
/- ------------------------------------------------------------------ -/

/-- C1: for each constant the bridge defines (`RSMPI_FLOAT` ...
`RSMPI_GROUP_NULL`), and for every library installation, the exposed
value is exactly the installation's value of the corresponding MPI
constant: the bridge is the identity pass-through on each captured
value. -/
theorem bridge_identity_pass_through (env : MPIEnv) :
    captureValue env "RSMPI_FLOAT" = some (env "MPI_FLOAT") ∧
    captureValue env "RSMPI_DOUBLE" = some (env "MPI_DOUBLE") ∧
    captureValue env "RSMPI_INT8_T" = some (env "MPI_INT8_T") ∧
    captureValue env "RSMPI_INT16_T" = some (env "MPI_INT16_T") ∧
    captureValue env "RSMPI_INT32_T" = some (env "MPI_INT32_T") ∧
    captureValue env "RSMPI_INT64_T" = some (env "MPI_INT64_T") ∧
    captureValue env "RSMPI_UINT8_T" = some (env "MPI_UINT8_T") ∧
    captureValue env "RSMPI_UINT16_T" = some (env "MPI_UINT16_T") ∧
    captureValue env "RSMPI_UINT32_T" = some (env "MPI_UINT32_T") ∧
    captureValue env "RSMPI_UINT64_T" = some (env "MPI_UINT64_T") ∧
    captureValue env "RSMPI_DATATYPE_NULL" = some (env "MPI_DATATYPE_NULL") ∧
    captureValue env "RSMPI_COMM_WORLD" = some (env "MPI_COMM_WORLD") ∧
    captureValue env "RSMPI_COMM_NULL" = some (env "MPI_COMM_NULL") ∧
    captureValue env "RSMPI_COMM_SELF" = some (env "MPI_COMM_SELF") ∧
    captureValue env "RSMPI_GROUP_NULL" = some (env "MPI_GROUP_NULL") :=
  ⟨rfl, rfl, rfl, rfl, rfl, rfl, rfl, rfl, rfl, rfl, rfl, rfl, rfl, rfl, rfl⟩

/-- C2 counterexample: the claim says all declared symbols (and that
there are 27 of them) are defined in the compiled unit; in fact the
header declares 32 symbols and `RSMPI_UNDEFINED` is declared but has no
definition in `rsmpi.c`. -/
theorem declared_not_all_defined_cex :
    rsmpiHeaderDecls.length = 32 ∧
    "RSMPI_UNDEFINED" ∈ declaredNames ∧
    lookupDef "RSMPI_UNDEFINED" = none := by
  refine ⟨rfl, ?_, rfl⟩
  decide

/-- C2 (amended): `rsmpi.h` declares 32 symbols; every symbol defined in
`rsmpi.c` is declared and defined exactly once (no duplicate
definitions), but exactly 17 of the 32 declared symbols have no
definition in the compiled unit. -/
theorem defined_once_seventeen_undefined :
    rsmpiHeaderDecls.length = 32 ∧
    rsmpiDefs.length = 15 ∧
    definedNames.Nodup ∧
    (definedNames.all (fun n => declaredNames.contains n) = true) ∧
    undefinedDeclaredNames.length = 17 := by
  refine ⟨rfl, rfl, ?_, ?_, rfl⟩ <;> decide

/-- C3 counterexample: the claim says that when the installed library
reports any-tag = -1, the exposed `RSMPI_ANY_TAG` links and compares
equal to -1; in fact `rsmpi.c` contains no definition of
`RSMPI_ANY_TAG` at all, so even against an installation whose every
constant is -1 the bridge exposes no value for it. -/
theorem any_tag_not_defined_cex :
    lookupDef "RSMPI_ANY_TAG" = none ∧
    captureValue (fun _ => (-1 : Int)) "RSMPI_ANY_TAG" = none :=
  ⟨rfl, rfl⟩

/-- C3 (amended): each of the four integer sentinels (undefined,
proc-null, any-source, any-tag) is declared in `rsmpi.h` as a `const`
signed `int` — a type that would preserve a negative value such as -1
exactly — but none of them has a backing definition in `rsmpi.c`, so no
value links for any of them. -/
theorem sentinels_declared_signed_but_undefined :
    (∀ n ∈ ["RSMPI_UNDEFINED", "RSMPI_PROC_NULL",
            "RSMPI_ANY_SOURCE", "RSMPI_ANY_TAG"],
      rsmpiHeaderDecls.find? (fun d => d.name == n) =
        some (externConst n .cInt) ∧
      lookupDef n = none) := by
  decide

/-- C3 amended witness: instantiated at `RSMPI_ANY_TAG`. -/
theorem sentinels_declared_signed_but_undefined_witness :
    rsmpiHeaderDecls.find? (fun d => d.name == "RSMPI_ANY_TAG") =
      some (externConst "RSMPI_ANY_TAG" .cInt) ∧
    lookupDef "RSMPI_ANY_TAG" = none :=
  sentinels_declared_signed_but_undefined "RSMPI_ANY_TAG" (by decide)

/-- C4: for every installation and every pair of defined bridge
constants whose underlying library values are distinct bit patterns, the
exposed values are unequal; in particular, when the installation gives
the null communicator a different bit pattern from the world
communicator, `RSMPI_COMM_NULL` and `RSMPI_COMM_WORLD` expose unequal
values. -/
theorem distinct_values_observably_distinct (env : MPIEnv) :
    (∀ d₁ ∈ rsmpiDefs, ∀ d₂ ∈ rsmpiDefs,
      env d₁.init ≠ env d₂.init →
      captureValue env d₁.name ≠ captureValue env d₂.name) ∧
    (env "MPI_COMM_NULL" ≠ env "MPI_COMM_WORLD" →
      captureValue env "RSMPI_COMM_NULL" ≠
      captureValue env "RSMPI_COMM_WORLD") := by
  constructor
  · intro d₁ h₁ d₂ h₂ hne
    rw [captureValue, captureValue, lookupDef_of_mem d₁ h₁,
      lookupDef_of_mem d₂ h₂]
    intro h
    exact hne (Option.some.inj h)
  · intro hne h
    rw [show captureValue env "RSMPI_COMM_NULL" =
          some (env "MPI_COMM_NULL") from rfl,
      show captureValue env "RSMPI_COMM_WORLD" =
          some (env "MPI_COMM_WORLD") from rfl] at h
    exact hne (Option.some.inj h)

/-- C4 witness: against an installation where the world communicator's
bit pattern is 1 and every other constant's is 0, the exposed null and
world communicators differ. -/
theorem distinct_values_observably_distinct_witness :
    captureValue (fun s => if s == "MPI_COMM_WORLD" then (1 : Int) else 0)
        "RSMPI_COMM_NULL" ≠
    captureValue (fun s => if s == "MPI_COMM_WORLD" then (1 : Int) else 0)
        "RSMPI_COMM_WORLD" :=
  (distinct_values_observably_distinct _).2 (by decide)

/-- C5: the capture step is deterministic in the header-provided inputs:
two builds against installations that agree on every MPI constant the
bridge reads produce bit-identical (name, value) lists — in particular,
two builds against the same unchanged installation do. -/
theorem capture_deterministic (env₁ env₂ : MPIEnv)
    (h : ∀ s ∈ captureInputs, env₁ s = env₂ s) :
    captureAll env₁ = captureAll env₂ :=
  captureAll_congr_aux rsmpiDefs env₁ env₂ h

/-- C5 witness: two concrete installations that agree on the captured
MPI constants (but not elsewhere) yield identical captures. -/
theorem capture_deterministic_witness :
    captureAll (fun _ => (0 : Int)) =
    captureAll (fun s => if s ∈ captureInputs then (0 : Int) else 7) :=
  capture_deterministic _ _ (by decide)

/-- C6: immutability by construction: the compiled `rsmpi.c` unit
consists only of file-scope `const` object definitions (static storage
duration under the C rules for file scope) and contains no function
definitions at all, so no operation of the bridge can ever write to,
reference-count, or free any exposed constant after link time. -/
theorem constants_immutable :
    bridgeUnit.functionDefs = [] ∧
    bridgeUnit.defs.all (fun d => d.isConst) = true ∧
    bridgeUnit.defs = rsmpiDefs := by
  refine ⟨rfl, ?_, rfl⟩
  decide

/-- C7 counterexample: the claim says the only declared-but-undefined
names are `RSMPI_GROUP_EMPTY` and `RSMPI_MAX_LIBRARY_VERSION_STRING`;
in fact `RSMPI_UNDEFINED` is declared, is not defined, and is neither of
those two. -/
theorem undefined_set_not_two_cex :
    "RSMPI_UNDEFINED" ∈ undefinedDeclaredNames ∧
    "RSMPI_UNDEFINED" ∉
      ["RSMPI_GROUP_EMPTY", "RSMPI_MAX_LIBRARY_VERSION_STRING"] := by
  decide

/-- C7 (amended): the declared-but-undefined names are exactly these 17
(which include the empty-group sentinel and the
max-library-version-string length); every other declared symbol has a
backing definition. -/
theorem undefined_declared_names_exact :
    undefinedDeclaredNames =
      [ "RSMPI_GROUP_EMPTY", "RSMPI_UNDEFINED", "RSMPI_PROC_NULL"
      , "RSMPI_ANY_SOURCE", "RSMPI_ANY_TAG", "RSMPI_MESSAGE_NO_PROC"
      , "RSMPI_REQUEST_NULL", "RSMPI_IDENT", "RSMPI_CONGRUENT"
      , "RSMPI_SIMILAR", "RSMPI_UNEQUAL", "RSMPI_THREAD_SINGLE"
      , "RSMPI_THREAD_FUNNELED", "RSMPI_THREAD_SERIALIZED"
      , "RSMPI_THREAD_MULTIPLE", "RSMPI_MAX_LIBRARY_VERSION_STRING"
      , "RSMPI_MAX_PROCESSOR_NAME" ] := by
  decide

/-- C8: linking the bridge unit with any number of consumer translation
units, each including the header any number of times, never yields two
definitions of any symbol: the header contributes only non-defining
`extern` declarations, and each constant is defined at most once, in the
single compiled unit. -/
theorem no_duplicate_definition (ks : List Nat) (n : String) :
    linkDefCount (bridgeUnit :: ks.map consumerUnit) n ≤ 1 := by
  have hbridge : defCountIn bridgeUnit n ≤ 1 := by
    have h1 : (rsmpiDefs.filter (fun d => d.name == n)).length ≤ 1 :=
      filter_name_length_le_one rsmpiDefs (by decide) n
    have h2 : (rsmpiHeaderDecls.filter
        (fun d => declIsDefinition d && d.name == n)).length = 0 := by
      rw [List.length_eq_zero, List.filter_eq_nil_iff]
      intro d hd hbd
      rw [header_decl_not_definition d hd] at hbd
      simp at hbd
    calc defCountIn bridgeUnit n
        = (rsmpiDefs.filter (fun d => d.name == n)).length +
          (rsmpiHeaderDecls.filter
            (fun d => declIsDefinition d && d.name == n)).length := rfl
      _ ≤ 1 := by omega
  have hcons : ((ks.map consumerUnit).map (fun u => defCountIn u n)).sum
      = 0 := by
    induction ks with
    | nil => rfl
    | cons k t ih =>
      rw [List.map_cons, List.map_cons, List.sum_cons,
        consumerUnit_defCount, ih]
  calc linkDefCount (bridgeUnit :: ks.map consumerUnit) n
      = defCountIn bridgeUnit n +
        ((ks.map consumerUnit).map (fun u => defCountIn u n)).sum := rfl
    _ ≤ 1 := by omega

/-- C9: declaration/definition consistency: each of the 15 symbols
defined in `rsmpi.c` has exactly one declaration of the same name in
`rsmpi.h`, and that declaration is `extern const` of the identical type
(`MPI_Datatype`, `MPI_Comm`, or `MPI_Group`) with matching `const`. -/
theorem decl_def_consistent :
    rsmpiDefs.length = 15 ∧
    rsmpiDefs.all declMatches = true := by
  refine ⟨rfl, ?_⟩
  decide

/-- C10: including `rsmpi.h` any number n ≥ 1 of times in a translation
unit yields exactly the declarations of a single inclusion (and the same
final guard state): the `RSMPI_INCLUDED` guard makes inclusion
idempotent, introducing no redeclaration. -/
theorem include_guard_idempotent (n : Nat) (h : 1 ≤ n) :
    includeTimes n = includeTimes 1 := by
  cases n with
  | zero => omega
  | succ m => rw [includeTimes_succ m, includeTimes_succ 0]

/-- C10 witness: five inclusions yield the same result as one. -/
theorem include_guard_idempotent_witness :
    1 ≤ 5 ∧ includeTimes 5 = includeTimes 1 :=
  ⟨by decide, include_guard_idempotent 5 (by decide)⟩

/-- C1 witness: against an installation giving every constant the bit
pattern 42, the bridge exposes 42 for `RSMPI_FLOAT`. -/
theorem bridge_identity_pass_through_witness :
    captureValue (fun _ => (42 : Int)) "RSMPI_FLOAT" = some 42 :=
  (bridge_identity_pass_through (fun _ => (42 : Int))).1

/-- C8 witness: linking the bridge with two consumer units (including
the header three times and once, respectively) sees at most one
definition of `RSMPI_FLOAT`. -/
theorem no_duplicate_definition_witness :
    linkDefCount (bridgeUnit :: [3, 1].map consumerUnit) "RSMPI_FLOAT" ≤ 1 :=
  no_duplicate_definition [3, 1] "RSMPI_FLOAT"
